import Mathlib

/-!
Shallow embedding of the tenant-resolution-and-routing subsystem of the
AssetMicro repository (src/mainproject/api/utils.py and the tenant mixins of
src/mainproject/api/views.py).

External effects (the directory service HTTP call, the environment, the Fernet
library, psycopg2 connections) are modelled as deterministic oracles packaged
in a `World`; the process-wide registry (`settings.DATABASES` and
`connections.databases`) is an explicit state threaded through the functions;
Python exceptions become `Except` results; side effects relevant to the claims
(outbound fetch, connectivity probe, alias registration) are recorded in an
event trace.
-/

namespace AssetMicro

/-- Connection configuration stored in the registry: the dict built by
`add_db_alias` (utils.py lines 20-33). Constant fields (`ENGINE`, `OPTIONS`,
flags) are kept so that an overwrite with a different tenant's parameters is
observable. -/
structure DbConfig where
  engine : String
  name : String
  user : String
  password : String
  host : String
  port : String
  atomic_requests : Bool
  autocommit : Bool
  time_zone : Option String
  conn_health_checks : Bool
  conn_max_age : Nat
deriving Repr, DecidableEq

/-- Process-wide settings state: `settings.DATABASES`, `connections.databases`
(both Python dicts keyed by alias) and `settings.TIME_ZONE`. -/
structure SettingsState where
  databases : List (String × DbConfig)
  connDatabases : List (String × DbConfig)
  time_zone : Option String
deriving Repr, DecidableEq

/-- Python dict membership: `alias in d`. -/
def dictHas (d : List (String × DbConfig)) (k : String) : Bool :=
  d.any (fun p => p.1 == k)

/-- Python dict read: `d.get(k)`. -/
def dictGet (d : List (String × DbConfig)) (k : String) : Option DbConfig :=
  (d.find? (fun p => p.1 == k)).map Prod.snd

/-- Python dict assignment `d[k] = v`: replaces the value when the key is
present, otherwise appends the new binding. -/
def dictInsert (d : List (String × DbConfig)) (k : String) (v : DbConfig) :
    List (String × DbConfig) :=
  if dictHas d k then d.map (fun p => if p.1 == k then (k, v) else p)
  else d ++ [(k, v)]

/-- Python `d.pop(k, None)`: removes the key when present. -/
def dictPop (d : List (String × DbConfig)) (k : String) : List (String × DbConfig) :=
  d.filter (fun p => p.1 != k)

/-- Number of entries under key `k` (a well-formed dict has at most one). -/
def countKey (d : List (String × DbConfig)) (k : String) : Nat :=
  (d.filter (fun p => p.1 == k)).length

/-- Keys are pairwise distinct: the representation invariant of a Python dict. -/
def keysNodup (d : List (String × DbConfig)) : Prop :=
  (d.map Prod.fst).Nodup

instance (d : List (String × DbConfig)) : Decidable (keysNodup d) := by
  unfold keysNodup; infer_instance

/-- Python truthiness of an `Optional[str]`: `None` and `""` are falsy. -/
def pyTruthyStr (s : Option String) : Bool :=
  match s with
  | none => false
  | some v => v != ""

/-- Python truthiness of an `Optional[int]`: `None` and `0` are falsy. -/
def pyTruthyNat (n : Option Nat) : Bool :=
  match n with
  | none => false
  | some v => v != 0

/-- Exceptions raised by utils.py, by Python exception class. -/
inductive UtilError where
  | valueError (msg : String)
  | runtimeError (msg : String)
  | keyError (key : String)
  | invalidToken
deriving Repr, DecidableEq

/-- JSON payload of the Accounts directory response; `none` means the key is
absent, `some ""` means present but falsy (both fail the `not data[k]` check). -/
structure DirData where
  alias_ : Option String
  db_name : Option String
  db_user : Option String
  db_host : Option String
  db_port : Option String
  db_password_encrypted : Option String
  db_password : Option String
deriving Repr, DecidableEq

/-- HTTP response of the directory service: status code, raw body, parsed JSON. -/
structure DirResponse where
  status : Nat
  body : String
  data : DirData
deriving Repr, DecidableEq

/-- The two directory endpoints, as deterministic oracles. -/
structure AccountsService where
  byClientId : Nat → DirResponse
  byUsername : String → DirResponse

/-- Fernet oracle: key validity (the `Fernet(key)` constructor) and decryption
(`none` models `InvalidToken` on a malformed or wrongly-keyed ciphertext). -/
structure FernetOracle where
  keyValid : String → Bool
  decrypt : String → String → Option String

/-- Result of a `psycopg2.connect` attempt: a connection handle or the raised
exception's message. -/
inductive ConnectResult where
  | ok (conn : Nat)
  | fail (msg : String)
deriving Repr, DecidableEq

/-- The deterministic external world: directory service, `ACCOUNTS_URL`,
process environment, Fernet library, and the network (connect attempts keyed
by name/user/password/host/port). -/
structure World where
  accounts : AccountsService
  accountsUrl : String
  env : String → Option String
  fernet : FernetOracle
  connect : String → String → String → String → String → ConnectResult

/-- Side effects recorded while running the orchestrator. -/
inductive Event where
  | fetch
  | probe
  | register (aliasName : String)
deriving Repr, DecidableEq

/-- decrypt_password (utils.py lines 10-15): reads `DB_ENCRYPTION_KEY` from the
environment on this very call (KeyError when absent), builds `Fernet(key)`
(ValueError on a malformed key), and decrypts (InvalidToken on failure). -/
def decrypt_password (env : String → Option String) (fernet : FernetOracle)
    (enc_password : String) : Except UtilError String :=
  match env "DB_ENCRYPTION_KEY" with
  | none => .error (.keyError "DB_ENCRYPTION_KEY")
  | some key =>
    if fernet.keyValid key then
      match fernet.decrypt key enc_password with
      | none => .error .invalidToken
      | some plain => .ok plain
    else .error (.valueError "Fernet key must be 32 url-safe base64-encoded bytes.")

/-- Module import of utils.py (lines 1-8 and 57-60): computes `ACCOUNTS_URL`
and `ACCOUNTS_TOKEN` from the environment. No other top-level statement can
fail, and `DB_ENCRYPTION_KEY` is not consulted here. -/
def module_startup (env : String → Option String) :
    Except UtilError (String × Option String) :=
  .ok (match env "ACCOUNTS_SERVICE_URL" with
       | some u => u
       | none => "http://localhost:8000",
       env "ACCOUNTS_SERVICE_TOKEN")

/-- add_db_alias (utils.py lines 17-37): builds the connection dict and assigns
it into both `settings.DATABASES` and `connections.databases`, returning the
alias. Plain dict assignment: an existing entry is replaced. -/
def add_db_alias (st : SettingsState) (aliasName db_name db_user db_password db_host db_port : String) :
    String × SettingsState :=
  let cfg : DbConfig :=
    { engine := "django.db.backends.postgresql"
      name := db_name
      user := db_user
      password := db_password
      host := db_host
      port := db_port
      atomic_requests := false
      autocommit := true
      time_zone := st.time_zone
      conn_health_checks := false
      conn_max_age := 0 }
  (aliasName, { st with
              databases := dictInsert st.databases aliasName cfg
              connDatabases := dictInsert st.connDatabases aliasName cfg })

/-- Open/close bookkeeping of the probe connection. -/
structure ProbeLog where
  opened : List Nat
  closed : List Nat
deriving Repr, DecidableEq

/-- test_db_connection (utils.py lines 39-54): attempts a connection; on
success returns `(True, None)`, on exception returns `(False, str(e))`; the
`finally` block closes the connection whenever one was obtained. -/
def test_db_connection (res : ConnectResult) : (Bool × Option String) × ProbeLog :=
  match res with
  | .ok c => ((true, none), ⟨[c], [c]⟩)
  | .fail m => ((false, some m), ⟨[], []⟩)

/-- Endpoint selection of fetch_client_db_info (utils.py lines 84-91): a truthy
`client_id` picks the by-client-id endpoint, otherwise a truthy
`client_username` picks the by-username endpoint, otherwise no request is made. -/
def selectResponse (w : World) (client_id : Option Nat) (client_username : Option String) :
    Option DirResponse :=
  if pyTruthyNat client_id then some (w.accounts.byClientId (client_id.getD 0))
  else if pyTruthyStr client_username then some (w.accounts.byUsername (client_username.getD ""))
  else none

/-- Required-field normalization of fetch_client_db_info (utils.py lines
98-104): each of the five keys must be present and truthy; at least one of the
two password keys must be present (presence only, truthiness not checked). -/
def checkRequired (data : DirData) : Except UtilError DirData :=
  if !pyTruthyStr data.alias_ then
    .error (.runtimeError "Missing key 'alias' in Accounts response")
  else if !pyTruthyStr data.db_name then
    .error (.runtimeError "Missing key 'db_name' in Accounts response")
  else if !pyTruthyStr data.db_user then
    .error (.runtimeError "Missing key 'db_user' in Accounts response")
  else if !pyTruthyStr data.db_host then
    .error (.runtimeError "Missing key 'db_host' in Accounts response")
  else if !pyTruthyStr data.db_port then
    .error (.runtimeError "Missing key 'db_port' in Accounts response")
  else if data.db_password_encrypted.isNone && data.db_password.isNone then
    .error (.runtimeError "Missing db_password or db_password_encrypted")
  else .ok data

/-- fetch_client_db_info (utils.py lines 68-106): checks `ACCOUNTS_URL`, picks
an endpoint from the identifying inputs, performs the GET (recorded as a
`.fetch` event), rejects non-200 responses, and normalizes the payload. -/
def fetch_client_db_info (w : World) (client_id : Option Nat) (client_username : Option String) :
    Except UtilError DirData × List Event :=
  if w.accountsUrl = "" then
    (.error (.runtimeError "ACCOUNTS_SERVICE_URL not configured"), [])
  else
    match selectResponse w client_id client_username with
    | none => (.error (.valueError "Provide client_id or client_username"), [])
    | some resp =>
      if resp.status ≠ 200 then
        (.error (.runtimeError ("Accounts responded " ++ toString resp.status ++ ": " ++ resp.body)),
         [.fetch])
      else (checkRequired resp.data, [.fetch])

/-- Password resolution step of ensure_alias_for_client (utils.py lines
120-124): decrypt when `db_password_encrypted` is present, else read
`db_password` (KeyError when absent too). -/
def resolve_password (w : World) (data : DirData) : Except UtilError String :=
  match data.db_password_encrypted with
  | some enc => decrypt_password w.env w.fernet enc
  | none =>
    match data.db_password with
    | some p => .ok p
    | none => .error (.keyError "db_password")

deriving instance DecidableEq for Except

/-- Outcome of the orchestrator: result, final registry state, event trace. -/
structure EnsureResult where
  result : Except UtilError String
  settings : SettingsState
  events : List Event
deriving Repr, DecidableEq

/-- Body of ensure_alias_for_client after a successful fetch (utils.py lines
114-146): return early when the alias is already registered; otherwise resolve
the password, probe connectivity (raising `RuntimeError` on failure before any
registration), then register the alias. -/
def ensure_after_fetch (w : World) (st : SettingsState) (data : DirData) (ev : List Event) :
    EnsureResult :=
  let an := data.alias_.getD ""
  if dictHas st.databases an then ⟨.ok an, st, ev⟩
  else
    match resolve_password w data with
    | .error e => ⟨.error e, st, ev⟩
    | .ok real_pw =>
      match (test_db_connection (w.connect (data.db_name.getD "") (data.db_user.getD "")
              real_pw (data.db_host.getD "") (data.db_port.getD ""))).1 with
      | (false, err) =>
        ⟨.error (.runtimeError ("DB connect failed: " ++ err.getD "None")), st, ev ++ [.probe]⟩
      | (true, _) =>
        let r := add_db_alias st an (data.db_name.getD "") (data.db_user.getD "")
                   real_pw (data.db_host.getD "") (data.db_port.getD "")
        ⟨.ok r.1, r.2, ev ++ [.probe, .register r.1]⟩

/-- ensure_alias_for_client (utils.py lines 108-146): fetch the directory
record first, then run the post-fetch body; any fetch failure propagates with
the registry untouched. -/
def ensure_alias_for_client (w : World) (st : SettingsState)
    (client_id : Option Nat) (client_username : Option String) : EnsureResult :=
  match fetch_client_db_info w client_id client_username with
  | (.error e, ev) => ⟨.error e, st, ev⟩
  | (.ok data, ev) => ensure_after_fetch w st data ev

/-- refresh_alias_for_client (utils.py lines 148-165): fetch the record, evict
the alias from both dicts (the pooled-connection close has no registry effect),
then re-run ensure_alias_for_client unconditionally. -/
def refresh_alias_for_client (w : World) (st : SettingsState)
    (client_id : Option Nat) (client_username : Option String) : EnsureResult :=
  match fetch_client_db_info w client_id client_username with
  | (.error e, ev) => ⟨.error e, st, ev⟩
  | (.ok data, ev) =>
    let aliasName := data.alias_.getD ""
    let st1 : SettingsState :=
      { st with databases := dictPop st.databases aliasName
                connDatabases := dictPop st.connDatabases aliasName }
    let r := ensure_alias_for_client w st1 client_id client_username
    ⟨r.result, r.settings, ev ++ r.events⟩

/-- Tenant claims attached to the authenticated request (`request.user.tenant`
or `request.tenant_info`): a dict that may carry `alias`, `client_username`,
`client_id` keys (`client_id` arrives as a string in the token). -/
structure TenantClaims where
  alias_ : Option String
  client_username : Option String
  client_id : Option String
deriving Repr, DecidableEq

/-- Exceptions raised by the view layer (views.py). -/
inductive ReqError where
  | authenticationFailed (msg : String)
  | apiException (msg : String)
  | utilError (e : UtilError)
deriving Repr, DecidableEq

/-- Python `int(s)` restricted to the decimal strings that occur here. -/
def parseInt (s : String) : Option Nat :=
  s.toNat?

/-- _ensure_alias_ready (views.py lines 69-83): fails with AuthenticationFailed
when the claims or the alias key are absent; when the alias is not yet in
`settings.DATABASES`, runs ensure_alias_for_client picked by the available
identifier (username, client_id, or the numeric suffix of a `client_`-prefixed
alias), else raises APIException; returns the token's alias. -/
def ensure_alias_ready (w : World) (st : SettingsState) (tenant : Option TenantClaims) :
    Except ReqError String × SettingsState × List Event :=
  match tenant with
  | none => (.error (.authenticationFailed "Tenant alias missing in token."), st, [])
  | some t =>
    match t.alias_ with
    | none => (.error (.authenticationFailed "Tenant alias missing in token."), st, [])
    | some aliasName =>
      if dictHas st.databases aliasName then (.ok aliasName, st, [])
      else
        let lift : EnsureResult → Except ReqError String × SettingsState × List Event :=
          fun r =>
            (match r.result with
             | .error e => .error (.utilError e)
             | .ok _ => .ok aliasName,
             r.settings, r.events)
        if pyTruthyStr t.client_username then
          lift (ensure_alias_for_client w st none t.client_username)
        else if pyTruthyStr t.client_id then
          match parseInt (t.client_id.getD "") with
          | none => (.error (.utilError (.valueError "invalid literal for int")), st, [])
          | some n => lift (ensure_alias_for_client w st (some n) none)
        else if aliasName.startsWith "client_" then
          match parseInt (aliasName.drop 7) with
          | none => (.error (.utilError (.valueError "invalid literal for int")), st, [])
          | some n => lift (ensure_alias_for_client w st (some n) none)
        else (.error (.apiException "Unable to resolve tenant DB."), st, [])

/-- Process state visible to a request: the settings plus the thread-local
current-tenant holder of the DB router. -/
structure RequestState where
  settings : SettingsState
  ctx : Option String
deriving Repr, DecidableEq

/-- Modelled from the spec: `set_current_tenant` lives in
`assetbackend/db_router.py`, which is not under src/; per the spec's Tenant
Context contract it stores the alias in the request-scoped (thread-local)
holder, and storing `None` clears it. -/
def set_current_tenant (rs : RequestState) (aliasName : Option String) : RequestState :=
  { rs with ctx := aliasName }

/-- RouterTenantContextMixin.initial (views.py lines 90-93): resolve the
tenant's alias (which may raise) and publish it to the DB router. -/
def mixin_initial (w : World) (tenant : Option TenantClaims) (rs : RequestState) :
    Except ReqError Unit × RequestState :=
  match ensure_alias_ready w rs.settings tenant with
  | (.error e, st1, _) => (.error e, { rs with settings := st1 })
  | (.ok aliasName, st1, _) =>
    (.ok (), set_current_tenant { rs with settings := st1 } (some aliasName))

/-- RouterTenantContextMixin.finalize_response (views.py lines 95-99):
delegates to the superclass inside `try`, and the `finally` block clears the
tenant context whether or not the superclass raised. -/
def mixin_finalize (innerRaises : Bool) (rs : RequestState) :
    Except ReqError Unit × RequestState :=
  let rs1 := set_current_tenant rs none
  (if innerRaises then .error (.apiException "finalize_response raised") else .ok (), rs1)

/-- Modelled from the spec: the framework request cycle (Django REST
Framework's `dispatch`, not under src/) invokes `initial`, then the handler
when `initial` succeeded, and invokes `finalize_response` on every path,
including when `initial` or the handler raised. -/
def dispatch (w : World) (tenant : Option TenantClaims)
    (handlerRaises innerFinalizeRaises : Bool) (rs : RequestState) :
    Except ReqError Unit × RequestState :=
  let r1 := mixin_initial w tenant rs
  let handlerOut : Except ReqError Unit :=
    match r1.1 with
    | .error e => .error e
    | .ok _ => if handlerRaises then .error (.apiException "handler raised") else .ok ()
  let r2 := mixin_finalize innerFinalizeRaises r1.2
  (match r2.1 with
   | .error e => .error e
   | .ok _ => handlerOut, r2.2)

/-! Concrete sample worlds used to evaluate the development on closed inputs. -/

/-- A complete directory record with an encrypted password. -/
def dirDataFull : DirData :=
  ⟨some "client_1845", some "db1845", some "u1845", some "db.local", some "5432",
   some "enc1845", none⟩

/-- A directory record whose `db_host` key is missing. -/
def dirDataNoHost : DirData :=
  ⟨some "client_7", some "db7", some "u7", none, some "5432", none, some "pw7"⟩

/-- A complete directory record with a plaintext password, reached only through
the by-username endpoint. -/
def dirDataByName : DirData :=
  ⟨some "client_name", some "dbn", some "un", some "h.local", some "5432", none, some "pwn"⟩

/-- Directory oracle: client id 7 yields the record with the missing host,
every other id yields the full record; usernames yield the by-name record. -/
def sampleAccounts : AccountsService where
  byClientId := fun n => if n == 7 then ⟨200, "", dirDataNoHost⟩ else ⟨200, "", dirDataFull⟩
  byUsername := fun _ => ⟨200, "", dirDataByName⟩

/-- Environment holding the Fernet key. -/
def sampleEnv : String → Option String :=
  fun k => if k == "DB_ENCRYPTION_KEY" then some "K" else none

/-- Environment with no variables set at all. -/
def envNoKey : String → Option String :=
  fun _ => none

/-- Fernet oracle: only key "K" is well-formed and only ciphertext "enc1845"
under it decrypts. -/
def sampleFernet : FernetOracle where
  keyValid := fun k => k == "K"
  decrypt := fun k c => if k == "K" && c == "enc1845" then some "pw1845" else none

/-- A network where every connect attempt succeeds. -/
def sampleWorld : World :=
  ⟨sampleAccounts, "http://localhost:8000", sampleEnv, sampleFernet, fun _ _ _ _ _ => .ok 0⟩

/-- The same world with an unreachable network. -/
def downWorld : World :=
  { sampleWorld with connect := fun _ _ _ _ _ => .fail "timeout expired" }

/-- Empty registry. -/
def emptySettings : SettingsState := ⟨[], [], none⟩

/-- Registry already holding an entry for alias `client_9`. -/
def settingsWith9 : SettingsState :=
  (add_db_alias emptySettings "client_9" "old_db" "old_user" "old_pw" "old_host" "1111").2

/-- Registry already holding an entry for alias `client_1845`. -/
def settingsWith1845 : SettingsState :=
  (add_db_alias emptySettings "client_1845" "old_db" "old_user" "old_pw" "old_host" "1111").2

/-- A directory payload is deficient when one of the five required keys is
absent or falsy, or both password keys are absent — exactly the conditions
checked by utils.py lines 99-104. -/
def missingRequired (data : DirData) : Bool :=
  !pyTruthyStr data.alias_ || !pyTruthyStr data.db_name || !pyTruthyStr data.db_user ||
  !pyTruthyStr data.db_host || !pyTruthyStr data.db_port ||
  (data.db_password_encrypted.isNone && data.db_password.isNone)

/-! Dictionary lemmas. -/

theorem countKey_of_not_has (d : List (String × DbConfig)) (k : String) :
    dictHas d k = false → countKey d k = 0 := by
  induction d with
  | nil => intro _; rfl
  | cons p tl ih =>
    intro h
    rw [dictHas, List.any_cons, Bool.or_eq_false_iff] at h
    unfold countKey
    rw [List.filter_cons]
    simp only [h.1, Bool.false_eq_true, if_false]
    exact ih h.2

theorem countKey_of_has_nodup (d : List (String × DbConfig)) (k : String) :
    keysNodup d → dictHas d k = true → countKey d k = 1 := by
  induction d with
  | nil => intro _ h; simp [dictHas] at h
  | cons p tl ih =>
    intro hn h
    rw [keysNodup, List.map_cons, List.nodup_cons] at hn
    by_cases hk : (p.1 == k) = true
    · have hk' : p.1 = k := by simpa using hk
      have htl : dictHas tl k = false := by
        rw [Bool.eq_false_iff]
        intro hc
        apply hn.1
        rw [hk']
        rw [dictHas, List.any_eq_true] at hc
        obtain ⟨x, hx, hxk⟩ := hc
        rw [List.mem_map]
        exact ⟨x, hx, by simpa using hxk⟩
      unfold countKey
      rw [List.filter_cons]
      simp only [hk, if_true]
      rw [List.length_cons]
      have := countKey_of_not_has tl k htl
      unfold countKey at this
      rw [this]
    · unfold countKey
      rw [List.filter_cons]
      simp only [Bool.not_eq_true] at hk
      simp only [hk, Bool.false_eq_true, if_false]
      apply ih hn.2
      rw [dictHas, List.any_cons] at h
      rcases Bool.or_eq_true_iff.mp h with h' | h'
      · rw [hk] at h'
        exact absurd h' (by simp)
      · exact h'

theorem dictInsert_of_not_has (d : List (String × DbConfig)) (k : String) (v : DbConfig) :
    dictHas d k = false → dictInsert d k v = d ++ [(k, v)] := by
  intro h
  unfold dictInsert
  rw [h]
  simp

theorem countKey_append (d₁ d₂ : List (String × DbConfig)) (k : String) :
    countKey (d₁ ++ d₂) k = countKey d₁ k + countKey d₂ k := by
  unfold countKey
  rw [List.filter_append, List.length_append]

theorem dictHas_append_single (d : List (String × DbConfig)) (k : String) (v : DbConfig) :
    dictHas (d ++ [(k, v)]) k = true := by
  unfold dictHas
  rw [List.any_append]
  simp

theorem dictHas_dictPop_self (d : List (String × DbConfig)) (k : String) :
    dictHas (dictPop d k) k = false := by
  rw [Bool.eq_false_iff]
  intro hc
  rw [dictHas, List.any_eq_true] at hc
  obtain ⟨x, hx, hxk⟩ := hc
  rw [dictPop, List.mem_filter] at hx
  have h2 := hx.2
  simp only [bne_iff_ne, ne_eq] at h2
  exact h2 (by simpa using hxk)

theorem dictHas_dictInsert_self (d : List (String × DbConfig)) (k : String) (v : DbConfig) :
    dictHas (dictInsert d k v) k = true := by
  unfold dictInsert
  by_cases h : dictHas d k = true
  · rw [if_pos h]
    rw [dictHas, List.any_eq_true]
    rw [dictHas, List.any_eq_true] at h
    obtain ⟨x, hx, hxk⟩ := h
    refine ⟨(k, v), ?_, by simp⟩
    rw [List.mem_map]
    exact ⟨x, hx, by rw [if_pos hxk]⟩
  · rw [if_neg h]
    exact dictHas_append_single d k v

theorem fetch_ok_events (w : World) (cid : Option Nat) (cu : Option String)
    (data : DirData) (ev : List Event)
    (h : fetch_client_db_info w cid cu = (.ok data, ev)) : ev = [Event.fetch] := by
  unfold fetch_client_db_info at h
  split at h
  · simp at h
  · split at h
    · simp at h
    · split at h
      · simp at h
      · rw [Prod.mk.injEq] at h
        exact h.2.symm

theorem find_replace (d : List (String × DbConfig)) (k : String) (v : DbConfig) :
    dictHas d k = true →
      (d.map (fun p => if p.1 == k then (k, v) else p)).find? (fun p => p.1 == k) =
        some (k, v) := by
  induction d with
  | nil => intro h; simp [dictHas] at h
  | cons p tl ih =>
    intro h
    by_cases hk : (p.1 == k) = true
    · rw [List.map_cons, if_pos hk]
      exact List.find?_cons_of_pos _ (by simp)
    · have hk' : (p.1 == k) = false := by simpa using hk
      rw [dictHas, List.any_cons, hk'] at h
      simp only [Bool.false_or] at h
      rw [List.map_cons, if_neg hk]
      simp only [List.find?_cons, hk']
      exact ih h

theorem find_append_not_has (d : List (String × DbConfig)) (k : String) (v : DbConfig) :
    dictHas d k = false →
      (d ++ [(k, v)]).find? (fun p => p.1 == k) = some (k, v) := by
  induction d with
  | nil => intro _; simp
  | cons p tl ih =>
    intro h
    rw [dictHas, List.any_cons, Bool.or_eq_false_iff] at h
    rw [List.cons_append]
    simpa [h.1] using ih h.2

theorem dictGet_dictInsert_self (d : List (String × DbConfig)) (k : String) (v : DbConfig) :
    dictGet (dictInsert d k v) k = some v := by
  unfold dictGet dictInsert
  by_cases h : dictHas d k = true
  · rw [if_pos h, find_replace d k v h]
    rfl
  · have h' : dictHas d k = false := by simpa using h
    rw [if_neg h, find_append_not_has d k v h']
    rfl

theorem countKey_single_self (k : String) (v : DbConfig) : countKey [(k, v)] k = 1 := by
  simp [countKey]

theorem checkRequired_cases (data : DirData) :
    (∃ msg, checkRequired data = .error (.runtimeError msg)) ∨
      (checkRequired data = .ok data ∧ missingRequired data = false) := by
  unfold checkRequired
  split
  · exact .inl ⟨_, rfl⟩
  · split
    · exact .inl ⟨_, rfl⟩
    · split
      · exact .inl ⟨_, rfl⟩
      · split
        · exact .inl ⟨_, rfl⟩
        · split
          · exact .inl ⟨_, rfl⟩
          · split
            · exact .inl ⟨_, rfl⟩
            · refine .inr ⟨rfl, ?_⟩
              rename_i h1 h2 h3 h4 h5 h6
              unfold missingRequired
              simp only [Bool.not_eq_true, Bool.not_eq_false] at h1 h2 h3 h4 h5 h6
              simp [h1, h2, h3, h4, h5, h6]

theorem ensure_after_fetch_ok_not_reg (w : World) (st : SettingsState) (data : DirData)
    (ev : List Event) (a : String)
    (hreg : dictHas st.databases (data.alias_.getD "") = false)
    (h : (ensure_after_fetch w st data ev).result = .ok a) :
    a = data.alias_.getD "" ∧
    ∃ pw, resolve_password w data = .ok pw ∧
      ensure_after_fetch w st data ev =
        ⟨.ok a, (add_db_alias st a (data.db_name.getD "") (data.db_user.getD "") pw
                  (data.db_host.getD "") (data.db_port.getD "")).2,
         ev ++ [Event.probe, Event.register a]⟩ := by
  rcases hpw : resolve_password w data with e | pw
  · exfalso
    simp only [ensure_after_fetch, hreg, Bool.false_eq_true, if_false, hpw] at h
    exact absurd h (by simp)
  · rcases hcn : w.connect (data.db_name.getD "") (data.db_user.getD "") pw
        (data.db_host.getD "") (data.db_port.getD "") with c | m
    · have ha : a = data.alias_.getD "" := by
        simp only [ensure_after_fetch, hreg, Bool.false_eq_true, if_false, hpw, hcn,
          test_db_connection] at h
        simpa using h.symm
      refine ⟨ha, pw, rfl, ?_⟩
      subst ha
      simp [ensure_after_fetch, hreg, hpw, hcn, test_db_connection, add_db_alias]
    · exfalso
      simp only [ensure_after_fetch, hreg, Bool.false_eq_true, if_false, hpw, hcn,
        test_db_connection] at h
      exact absurd h (by simp)

/-- C9: the Connectivity Prober never leaks the probe connection — on every
exit path each connection it opened is also closed before returning — and it
returns either a success result `(True, None)` or an unreachable result
`(False, cause)` instead of propagating the exception. -/
theorem test_db_connection_no_leak (res : ConnectResult) :
    (test_db_connection res).2.opened = (test_db_connection res).2.closed ∧
      ((test_db_connection res).1 = (true, none) ∨
        ∃ m, (test_db_connection res).1 = (false, some m)) := by
  cases res with
  | ok c => exact ⟨rfl, .inl rfl⟩
  | fail m => exact ⟨rfl, .inr ⟨m, rfl⟩⟩

/-- C7: whatever the tenant claims, the prior thread-local context, and the
outcomes of the handler and of response rendering, the tenant context is
cleared (None) by the end of the request cycle. -/
theorem tenant_context_cleared (w : World) (tenant : Option TenantClaims)
    (handlerRaises innerFinalizeRaises : Bool) (rs : RequestState) :
    (dispatch w tenant handlerRaises innerFinalizeRaises rs).2.ctx = none := rfl

/-- C3 counterexample: alias `client_9` is already present in the registry,
yet add_db_alias on that alias returns normally (it cannot fail) and silently
replaces the stored configuration with the new parameters. -/
theorem add_db_alias_overwrites_cex :
    dictHas settingsWith9.databases "client_9" = true ∧
    (add_db_alias settingsWith9 "client_9" "n2" "u2" "p2" "h2" "5433").1 = "client_9" ∧
    dictGet (add_db_alias settingsWith9 "client_9" "n2" "u2" "p2" "h2" "5433").2.databases
        "client_9" =
      some ⟨"django.db.backends.postgresql", "n2", "u2", "p2", "h2", "5433",
            false, true, none, false, 0⟩ ∧
    dictGet (add_db_alias settingsWith9 "client_9" "n2" "u2" "p2" "h2" "5433").2.databases
        "client_9" ≠ dictGet settingsWith9.databases "client_9" := by
  refine ⟨by decide, rfl, by decide, by decide⟩

/-- C3 (amended): add_db_alias is last-writer-wins: it always returns the
alias and maps it in both dicts to the freshly built configuration, replacing
any existing entry instead of failing with AlreadyRegistered; overwrite is
avoided only by the caller-side registry check in ensure_alias_for_client. -/
theorem add_db_alias_last_writer_wins (st : SettingsState) (a n u p h po : String) :
    (add_db_alias st a n u p h po).1 = a ∧
    dictGet (add_db_alias st a n u p h po).2.databases a =
      some ⟨"django.db.backends.postgresql", n, u, p, h, po, false, true,
            st.time_zone, false, 0⟩ ∧
    dictGet (add_db_alias st a n u p h po).2.connDatabases a =
      some ⟨"django.db.backends.postgresql", n, u, p, h, po, false, true,
            st.time_zone, false, 0⟩ :=
  ⟨rfl, dictGet_dictInsert_self _ _ _, dictGet_dictInsert_self _ _ _⟩

/-- C4 counterexample: supplying both client_id and client_username does not
fail with InvalidArgument: the call performs the by-client-id lookup, succeeds,
and ignores the username (the by-username record differs). -/
theorem fetch_both_identifiers_cex :
    fetch_client_db_info sampleWorld (some 1) (some "someuser") =
      (.ok dirDataFull, [Event.fetch]) ∧
    sampleWorld.accounts.byUsername "someuser" = ⟨200, "", dirDataByName⟩ ∧
    dirDataFull ≠ dirDataByName := by
  refine ⟨rfl, rfl, by decide⟩

/-- C4 (amended): supplying neither identifier — or only Python-falsy values
(None, 0, "") — fails with ValueError before any directory call; supplying
both is not an error: client_id takes precedence and the by-client-id lookup
runs. -/
theorem fetch_neither_identifier_errors (w : World) (cid : Option Nat) (cu : Option String)
    (hurl : ¬w.accountsUrl = "")
    (h1 : pyTruthyNat cid = false) (h2 : pyTruthyStr cu = false) :
    fetch_client_db_info w cid cu =
      (.error (.valueError "Provide client_id or client_username"), []) := by
  unfold fetch_client_db_info selectResponse
  rw [if_neg hurl, h1, h2]
  simp

theorem fetch_neither_identifier_errors_witness :
    fetch_client_db_info sampleWorld (some 0) (some "") =
      (.error (.valueError "Provide client_id or client_username"), []) :=
  fetch_neither_identifier_errors sampleWorld (some 0) (some "")
    (by decide) (by decide) (by decide)

/-- C8 counterexample: with `DB_ENCRYPTION_KEY` absent from the environment,
module import of utils.py still succeeds — there is no fail-fast key check at
startup — and the missing key surfaces only as a KeyError at the
decrypt_password call itself. -/
theorem decrypt_key_not_read_at_startup_cex :
    module_startup envNoKey = .ok ("http://localhost:8000", none) ∧
    decrypt_password envNoKey sampleFernet "enc1845" =
      .error (.keyError "DB_ENCRYPTION_KEY") :=
  ⟨rfl, rfl⟩

/-- C8 (amended): for every malformed or wrongly-keyed ciphertext (the Fernet
decryption fails), decrypt_password fails with the decryption error; the key
is read from the environment on each call, so its absence fails at call time
with KeyError, not at startup. -/
theorem decrypt_password_invalid_token (env : String → Option String)
    (fernet : FernetOracle) (enc k : String)
    (hk : env "DB_ENCRYPTION_KEY" = some k) (hv : fernet.keyValid k = true)
    (hbad : fernet.decrypt k enc = none) :
    decrypt_password env fernet enc = .error .invalidToken := by
  simp [decrypt_password, hk, hv, hbad]

theorem decrypt_password_invalid_token_witness :
    decrypt_password sampleEnv sampleFernet "tampered" = .error .invalidToken :=
  decrypt_password_invalid_token sampleEnv sampleFernet "tampered" "K"
    (by decide) (by decide) (by decide)

/-- C2: when the connectivity probe fails, ensure_alias_for_client aborts with
the connect RuntimeError (the spec's TenantUnreachable), the registry state
after the call equals the state before it, and the trace carries no
registration event — register is never reached on the probe-failure path. -/
theorem ensure_probe_fail_no_mutation (w : World) (st : SettingsState)
    (cid : Option Nat) (cu : Option String) (data : DirData) (ev : List Event) (pw m : String)
    (hf : fetch_client_db_info w cid cu = (.ok data, ev))
    (hreg : dictHas st.databases (data.alias_.getD "") = false)
    (hpw : resolve_password w data = .ok pw)
    (hprobe : w.connect (data.db_name.getD "") (data.db_user.getD "") pw
        (data.db_host.getD "") (data.db_port.getD "") = .fail m) :
    ensure_alias_for_client w st cid cu =
      ⟨.error (.runtimeError ("DB connect failed: " ++ m)), st, ev ++ [Event.probe]⟩ := by
  have heq : ensure_alias_for_client w st cid cu = ensure_after_fetch w st data ev := by
    unfold ensure_alias_for_client
    rw [hf]
  rw [heq]
  simp [ensure_after_fetch, hreg, hpw, hprobe, test_db_connection]

theorem ensure_probe_fail_no_mutation_witness :
    ensure_alias_for_client downWorld emptySettings (some 1845) none =
      ⟨.error (.runtimeError ("DB connect failed: " ++ "timeout expired")), emptySettings,
       [Event.fetch] ++ [Event.probe]⟩ :=
  ensure_probe_fail_no_mutation downWorld emptySettings (some 1845) none dirDataFull
    [Event.fetch] "pw1845" "timeout expired" (by rfl) (by rfl) (by rfl) (by rfl)

/-- C10: ensure_alias_for_client performs the outbound directory fetch before
consulting the registry: even when the fetched alias is already registered,
the call's trace contains the fetch event — the fast path skips only decrypt,
probe, and register — and the registry is returned untouched. -/
theorem ensure_fetches_before_registry (w : World) (st : SettingsState)
    (cid : Option Nat) (cu : Option String) (data : DirData) (ev : List Event)
    (hf : fetch_client_db_info w cid cu = (.ok data, ev))
    (hreg : dictHas st.databases (data.alias_.getD "") = true) :
    ensure_alias_for_client w st cid cu = ⟨.ok (data.alias_.getD ""), st, ev⟩ ∧
      ev = [Event.fetch] := by
  refine ⟨?_, fetch_ok_events w cid cu data ev hf⟩
  have heq : ensure_alias_for_client w st cid cu = ensure_after_fetch w st data ev := by
    unfold ensure_alias_for_client
    rw [hf]
  rw [heq]
  simp [ensure_after_fetch, hreg]

theorem ensure_fetches_before_registry_witness :
    ensure_alias_for_client sampleWorld settingsWith1845 (some 1845) none =
      ⟨.ok "client_1845", settingsWith1845, [Event.fetch]⟩ ∧
      [Event.fetch] = [Event.fetch] :=
  ensure_fetches_before_registry sampleWorld settingsWith1845 (some 1845) none
    dirDataFull [Event.fetch] (by rfl) (by decide)

/-- C5: a 200 directory response whose payload misses any required field — or
both password variants — makes resolution fail with the missing-key
RuntimeError (the spec's DirectoryError), and the Alias Registry is not
mutated by the ensure_alias_for_client call. -/
theorem missing_field_no_mutation (w : World) (st : SettingsState)
    (cid : Option Nat) (cu : Option String) (r : DirResponse)
    (hurl : ¬w.accountsUrl = "")
    (hsel : selectResponse w cid cu = some r)
    (hst : r.status = 200)
    (hmiss : missingRequired r.data = true) :
    ∃ msg, ensure_alias_for_client w st cid cu =
      ⟨.error (.runtimeError msg), st, [Event.fetch]⟩ := by
  rcases checkRequired_cases r.data with ⟨msg, hc⟩ | ⟨_, hfalse⟩
  · refine ⟨msg, ?_⟩
    have hfetch : fetch_client_db_info w cid cu =
        (.error (.runtimeError msg), [Event.fetch]) := by
      unfold fetch_client_db_info
      rw [if_neg hurl, hsel]
      simp [hst, hc]
    unfold ensure_alias_for_client
    rw [hfetch]
  · rw [hfalse] at hmiss
    exact absurd hmiss (by simp)

theorem missing_field_no_mutation_witness :
    ∃ msg, ensure_alias_for_client sampleWorld emptySettings (some 7) none =
      ⟨.error (.runtimeError msg), emptySettings, [Event.fetch]⟩ :=
  missing_field_no_mutation sampleWorld emptySettings (some 7) none
    ⟨200, "", dirDataNoHost⟩ (by decide) (by rfl) (by rfl) (by decide)

/-- C6: whenever refresh_alias_for_client succeeds, its event trace is exactly
fetch, fetch, probe, register: the connectivity probe is re-executed even if
the alias was registered before the call (the eviction empties the fast path),
and the refreshed entry is committed only after that fresh probe. -/
theorem refresh_reprobes (w : World) (st : SettingsState)
    (cid : Option Nat) (cu : Option String) (a : String)
    (h : (refresh_alias_for_client w st cid cu).result = .ok a) :
    (refresh_alias_for_client w st cid cu).events =
      [Event.fetch, Event.fetch, Event.probe, Event.register a] := by
  rcases hf : fetch_client_db_info w cid cu with ⟨res, ev⟩
  cases res with
  | error e =>
    exfalso
    have heq : refresh_alias_for_client w st cid cu = ⟨.error e, st, ev⟩ := by
      unfold refresh_alias_for_client
      rw [hf]
    rw [heq] at h
    exact absurd h (by simp)
  | ok data =>
    have hev := fetch_ok_events w cid cu data ev hf
    subst hev
    have heq : refresh_alias_for_client w st cid cu =
        ⟨(ensure_alias_for_client w
            { st with databases := dictPop st.databases (data.alias_.getD "")
                      connDatabases := dictPop st.connDatabases (data.alias_.getD "") }
            cid cu).result,
         (ensure_alias_for_client w
            { st with databases := dictPop st.databases (data.alias_.getD "")
                      connDatabases := dictPop st.connDatabases (data.alias_.getD "") }
            cid cu).settings,
         [Event.fetch] ++ (ensure_alias_for_client w
            { st with databases := dictPop st.databases (data.alias_.getD "")
                      connDatabases := dictPop st.connDatabases (data.alias_.getD "") }
            cid cu).events⟩ := by
      unfold refresh_alias_for_client
      rw [hf]
    have heq2 : ensure_alias_for_client w
        { st with databases := dictPop st.databases (data.alias_.getD "")
                  connDatabases := dictPop st.connDatabases (data.alias_.getD "") }
        cid cu =
        ensure_after_fetch w
          { st with databases := dictPop st.databases (data.alias_.getD "")
                    connDatabases := dictPop st.connDatabases (data.alias_.getD "") }
          data [Event.fetch] := by
      unfold ensure_alias_for_client
      rw [hf]
    have hreg' : dictHas
        (SettingsState.databases
          { st with databases := dictPop st.databases (data.alias_.getD "")
                    connDatabases := dictPop st.connDatabases (data.alias_.getD "") })
        (data.alias_.getD "") = false := dictHas_dictPop_self _ _
    have h' : (ensure_after_fetch w
        { st with databases := dictPop st.databases (data.alias_.getD "")
                  connDatabases := dictPop st.connDatabases (data.alias_.getD "") }
        data [Event.fetch]).result = .ok a := by
      rw [← heq2]
      rw [heq] at h
      exact h
    obtain ⟨ha, pw, hpw, hfull⟩ :=
      ensure_after_fetch_ok_not_reg w _ data [Event.fetch] a hreg' h'
    rw [heq, heq2, hfull]
    rfl

theorem refresh_reprobes_witness :
    (refresh_alias_for_client sampleWorld settingsWith1845 (some 1845) none).events =
      [Event.fetch, Event.fetch, Event.probe, Event.register "client_1845"] :=
  refresh_reprobes sampleWorld settingsWith1845 (some 1845) none "client_1845" (by rfl)

/-- C1: ensure_alias_for_client is idempotent for every identifier on which it
succeeds: a second call with the same identifiers returns the same alias,
leaves the Alias Registry exactly as the first call left it, and that registry
holds exactly one entry for the alias. -/
theorem ensure_alias_idempotent (w : World) (st : SettingsState)
    (cid : Option Nat) (cu : Option String) (a : String)
    (hnd : keysNodup st.databases)
    (h : (ensure_alias_for_client w st cid cu).result = .ok a) :
    ensure_alias_for_client w (ensure_alias_for_client w st cid cu).settings cid cu =
      ⟨.ok a, (ensure_alias_for_client w st cid cu).settings, [Event.fetch]⟩ ∧
    countKey (ensure_alias_for_client w st cid cu).settings.databases a = 1 := by
  rcases hf : fetch_client_db_info w cid cu with ⟨res, ev⟩
  cases res with
  | error e =>
    exfalso
    have heq : ensure_alias_for_client w st cid cu = ⟨.error e, st, ev⟩ := by
      unfold ensure_alias_for_client
      rw [hf]
    rw [heq] at h
    exact absurd h (by simp)
  | ok data =>
    have hev := fetch_ok_events w cid cu data ev hf
    subst hev
    have heq : ensure_alias_for_client w st cid cu =
        ensure_after_fetch w st data [Event.fetch] := by
      unfold ensure_alias_for_client
      rw [hf]
    by_cases hreg : dictHas st.databases (data.alias_.getD "") = true
    · have hfirst : ensure_alias_for_client w st cid cu =
          ⟨.ok (data.alias_.getD ""), st, [Event.fetch]⟩ := by
        rw [heq]
        simp [ensure_after_fetch, hreg]
      rw [hfirst] at h
      have ha : data.alias_.getD "" = a := by simpa using h
      refine ⟨?_, ?_⟩
      · rw [hfirst]
        show ensure_alias_for_client w st cid cu = ⟨.ok a, st, [Event.fetch]⟩
        rw [hfirst, ha]
      · rw [hfirst]
        show countKey st.databases a = 1
        rw [← ha]
        exact countKey_of_has_nodup st.databases _ hnd hreg
    · have hreg' : dictHas st.databases (data.alias_.getD "") = false := by simpa using hreg
      have h' : (ensure_after_fetch w st data [Event.fetch]).result = .ok a := by
        rw [← heq]
        exact h
      obtain ⟨ha, pw, hpw, hfull⟩ :=
        ensure_after_fetch_ok_not_reg w st data [Event.fetch] a hreg' h'
      subst ha
      have hfirst : ensure_alias_for_client w st cid cu =
          ⟨.ok (data.alias_.getD ""),
           (add_db_alias st (data.alias_.getD "") (data.db_name.getD "") (data.db_user.getD "")
             pw (data.db_host.getD "") (data.db_port.getD "")).2,
           [Event.fetch] ++ [Event.probe, Event.register (data.alias_.getD "")]⟩ := by
        rw [heq]
        exact hfull
      have hreg2 : dictHas (add_db_alias st (data.alias_.getD "") (data.db_name.getD "")
          (data.db_user.getD "") pw (data.db_host.getD "") (data.db_port.getD "")).2.databases
          (data.alias_.getD "") = true := by
        simp only [add_db_alias]
        exact dictHas_dictInsert_self _ _ _
      have heq2 : ensure_alias_for_client w
          (add_db_alias st (data.alias_.getD "") (data.db_name.getD "") (data.db_user.getD "")
            pw (data.db_host.getD "") (data.db_port.getD "")).2 cid cu =
          ensure_after_fetch w
            (add_db_alias st (data.alias_.getD "") (data.db_name.getD "") (data.db_user.getD "")
              pw (data.db_host.getD "") (data.db_port.getD "")).2 data [Event.fetch] := by
        unfold ensure_alias_for_client
        rw [hf]
      refine ⟨?_, ?_⟩
      · rw [hfirst]
        show ensure_alias_for_client w
            (add_db_alias st (data.alias_.getD "") (data.db_name.getD "") (data.db_user.getD "")
              pw (data.db_host.getD "") (data.db_port.getD "")).2 cid cu =
          ⟨.ok (data.alias_.getD ""),
           (add_db_alias st (data.alias_.getD "") (data.db_name.getD "") (data.db_user.getD "")
             pw (data.db_host.getD "") (data.db_port.getD "")).2,
           [Event.fetch]⟩
        rw [heq2]
        simp [ensure_after_fetch, hreg2]
      · rw [hfirst]
        show countKey (add_db_alias st (data.alias_.getD "") (data.db_name.getD "")
            (data.db_user.getD "") pw (data.db_host.getD "") (data.db_port.getD "")).2.databases
            (data.alias_.getD "") = 1
        simp only [add_db_alias]
        rw [dictInsert_of_not_has _ _ _ hreg', countKey_append,
            countKey_of_not_has _ _ hreg', countKey_single_self]

theorem ensure_alias_idempotent_witness :
    ensure_alias_for_client sampleWorld
        (ensure_alias_for_client sampleWorld emptySettings (some 1845) none).settings
        (some 1845) none =
      ⟨.ok "client_1845",
       (ensure_alias_for_client sampleWorld emptySettings (some 1845) none).settings,
       [Event.fetch]⟩ ∧
    countKey
        (ensure_alias_for_client sampleWorld emptySettings (some 1845) none).settings.databases
        "client_1845" = 1 :=
  ensure_alias_idempotent sampleWorld emptySettings (some 1845) none "client_1845"
    (by decide) (by rfl)

end AssetMicro
